import Mathlib

/-!
Shallow embedding of the golf-buddy-finder server core: the buddy-match state
machine, the conversation normalizer, the buddy search engine and the messaging
gateway, as implemented by the TypeScript handlers under
`src/server/src/handlers` and the drizzle schema.  The relational store is
modelled as lists of rows plus the serial-id counters; timestamps are a logical
clock passed to each operation as `now`.  Fallible handlers return
`Except String` carrying the exact error message thrown by the source.
-/

namespace GolfBuddy

/-- skill_level enum of the users table. -/
inductive SkillLevel
  | beginner
  | intermediate
  | advanced
  | pro
deriving DecidableEq, Repr

/-- time_preference enum. -/
inductive TimePreferenceValue
  | morning
  | afternoon
  | evening
  | weekend
deriving DecidableEq, Repr

/-- message_status enum. -/
inductive MessageStatus
  | sent
  | delivered
  | read
deriving DecidableEq, Repr

/-- buddy_match_status enum. -/
inductive MatchStatus
  | pending
  | accepted
  | declined
deriving DecidableEq, Repr

/-- a row of the users table (drizzle `usersTable`). -/
structure User where
  id : Nat
  email : String
  username : String
  full_name : String
  skill_level : SkillLevel
  handicap : Option Int
  location : String
  bio : Option String
  home_course : Option String
  created_at : Nat
  updated_at : Nat
deriving DecidableEq, Repr

/-- a row of the conversations table. -/
structure Conversation where
  id : Nat
  user1_id : Nat
  user2_id : Nat
  created_at : Nat
  updated_at : Nat
deriving DecidableEq, Repr

/-- a row of the messages table. -/
structure Message where
  id : Nat
  conversation_id : Nat
  sender_id : Nat
  content : String
  status : MessageStatus
  created_at : Nat
deriving DecidableEq, Repr

/-- a row of the buddy_matches table. -/
structure BuddyMatch where
  id : Nat
  requester_id : Nat
  recipient_id : Nat
  status : MatchStatus
  created_at : Nat
  updated_at : Nat
deriving DecidableEq, Repr

/-- a row of the user_favorite_courses join table. -/
structure UserFavoriteCourse where
  id : Nat
  user_id : Nat
  course_id : Nat
  created_at : Nat
deriving DecidableEq, Repr

/-- a row of the user_time_preferences join table. -/
structure UserTimePreference where
  id : Nat
  user_id : Nat
  time_preference : TimePreferenceValue
  created_at : Nat
deriving DecidableEq, Repr

/-- the relational store: one list of rows per table touched by the core,
together with the serial-id counters of the tables the handlers insert into. -/
structure DB where
  users : List User
  conversations : List Conversation
  messages : List Message
  buddyMatches : List BuddyMatch
  favoriteCourses : List UserFavoriteCourse
  timePreferences : List UserTimePreference
  nextConversationId : Nat
  nextMessageId : Nat
  nextMatchId : Nat
deriving DecidableEq, Repr

/-- the restricted status enum of `updateBuddyMatchStatusInputSchema`
(`z.enum(['accepted', 'declined'])`). -/
inductive DecisionStatus
  | accepted
  | declined
deriving DecidableEq, Repr

/-- embeds the decision enum into the full status enum. -/
def DecisionStatus.toMatchStatus : DecisionStatus → MatchStatus
  | .accepted => MatchStatus.accepted
  | .declined => MatchStatus.declined

/-- handler `createBuddyMatch` (src/server/src/handlers/create_buddy_match.ts):
self-match guard, both-users-exist check (`users.length !== 2` over a select
whose where-clause is `id = requester OR id = recipient`), duplicate check over
both directions regardless of status, then insert of a pending row. -/
def createBuddyMatch (s : DB) (requester_id recipient_id : Nat) (now : Nat) :
    Except String (BuddyMatch × DB) :=
  if requester_id = recipient_id then
    .error "Cannot create buddy match with yourself"
  else
    let users := s.users.filter fun u => decide (u.id = requester_id ∨ u.id = recipient_id)
    if users.length ≠ 2 then
      .error "One or both users not found"
    else
      let existingMatch := s.buddyMatches.filter fun m =>
        decide ((m.requester_id = requester_id ∧ m.recipient_id = recipient_id) ∨
                (m.requester_id = recipient_id ∧ m.recipient_id = requester_id))
      if existingMatch.length > 0 then
        .error "Buddy match already exists between these users"
      else
        let newMatch : BuddyMatch :=
          { id := s.nextMatchId
            requester_id := requester_id
            recipient_id := recipient_id
            status := MatchStatus.pending
            created_at := now
            updated_at := now }
        .ok (newMatch,
          { s with
              buddyMatches := s.buddyMatches ++ [newMatch]
              nextMatchId := s.nextMatchId + 1 })

/-- handler `updateBuddyMatchStatus`
(src/server/src/handlers/update_buddy_match_status.ts): a single combined
lookup for a row with the given id in status pending, an update of every row
with that id to the new status (refreshing updated_at), and — on acceptance
only — an insert of a conversation row `(requester_id, recipient_id)` taken
from the matched row as-is, guarded by existence checks in both participant
orders.  The returned row is the first row of the update's RETURNING clause;
that list cannot be empty when the pending lookup succeeded, so the final
error branch is unreachable. -/
def updateBuddyMatchStatus (s : DB) (id : Nat) (status : DecisionStatus) (now : Nat) :
    Except String (BuddyMatch × DB) :=
  let existingMatch := s.buddyMatches.filter fun m =>
    decide (m.id = id ∧ m.status = MatchStatus.pending)
  match existingMatch with
  | [] => .error "Buddy match not found or not in pending status"
  | m :: _ =>
    let newStatus := status.toMatchStatus
    let updatedMatches := s.buddyMatches.map fun bm =>
      if bm.id = id then { bm with status := newStatus, updated_at := now } else bm
    let s₁ := { s with buddyMatches := updatedMatches }
    let s₂ :=
      if status = DecisionStatus.accepted then
        let existingConversation := s₁.conversations.filter fun c =>
          decide (c.user1_id = m.requester_id ∧ c.user2_id = m.recipient_id)
        let existingConversationReverse := s₁.conversations.filter fun c =>
          decide (c.user1_id = m.recipient_id ∧ c.user2_id = m.requester_id)
        if existingConversation.length == 0 && existingConversationReverse.length == 0 then
          { s₁ with
              conversations := s₁.conversations ++
                [{ id := s₁.nextConversationId
                   user1_id := m.requester_id
                   user2_id := m.recipient_id
                   created_at := now
                   updated_at := now }]
              nextConversationId := s₁.nextConversationId + 1 }
        else s₁
      else s₁
    match updatedMatches.filter fun bm => decide (bm.id = id) with
    | [] => .error "Buddy match status update failed"
    | r :: _ => .ok (r, s₂)

/-- Modelled from the spec: the repository ships `createConversation` only as a
non-persisting placeholder (src/server/src/handlers/create_conversation.ts,
first document), so the get-or-create body is missing from the source; this
definition follows §4.2 of the specification ("Conversation Normalizer,
getOrCreate") word for word: self-conversation error, existence check that
must find exactly two matching user rows, lo = min / hi = max normalization,
return of an existing (lo, hi) row unchanged, otherwise insert of
(lo, hi, now, now).  Error messages are the ones asserted by the repository's
own tests (src/server/src/tests/create_conversation.test.ts). -/
def createConversation (s : DB) (user1_id user2_id : Nat) (now : Nat) :
    Except String (Conversation × DB) :=
  if user1_id = user2_id then
    .error "Cannot create conversation with yourself"
  else
    let users := s.users.filter fun u => decide (u.id = user1_id ∨ u.id = user2_id)
    if users.length ≠ 2 then
      .error "One or both users do not exist"
    else
      let lo := min user1_id user2_id
      let hi := max user1_id user2_id
      match s.conversations.filter fun c => decide (c.user1_id = lo ∧ c.user2_id = hi) with
      | c :: _ => .ok (c, s)
      | [] =>
        let newConversation : Conversation :=
          { id := s.nextConversationId
            user1_id := lo
            user2_id := hi
            created_at := now
            updated_at := now }
        .ok (newConversation,
          { s with
              conversations := s.conversations ++ [newConversation]
              nextConversationId := s.nextConversationId + 1 })

/-- handler `sendMessage` (third document of
src/server/src/handlers/create_conversation.ts): combined
conversation-exists-and-sender-participates lookup, insert of a message with
status sent, then a touch of the conversation's updated_at. -/
def sendMessage (s : DB) (conversation_id sender_id : Nat) (content : String) (now : Nat) :
    Except String (Message × DB) :=
  let conversation := s.conversations.filter fun c =>
    decide (c.id = conversation_id ∧ (c.user1_id = sender_id ∨ c.user2_id = sender_id))
  if conversation.length = 0 then
    .error "Conversation not found or sender is not a participant"
  else
    let newMessage : Message :=
      { id := s.nextMessageId
        conversation_id := conversation_id
        sender_id := sender_id
        content := content
        status := MessageStatus.sent
        created_at := now }
    let s₁ :=
      { s with
          messages := s.messages ++ [newMessage]
          nextMessageId := s.nextMessageId + 1 }
    .ok (newMessage,
      { s₁ with
          conversations := s₁.conversations.map fun c =>
            if c.id = conversation_id then { c with updated_at := now } else c })

/-- ordering relation used by `ORDER BY created_at ASC`. -/
def byCreatedAt (a b : Message) : Prop :=
  a.created_at ≤ b.created_at

instance : DecidableRel byCreatedAt := fun a b =>
  inferInstanceAs (Decidable (a.created_at ≤ b.created_at))

instance : IsTotal Message byCreatedAt :=
  ⟨fun a b => Nat.le_total a.created_at b.created_at⟩

instance : IsTrans Message byCreatedAt :=
  ⟨fun _ _ _ hab hbc => Nat.le_trans hab hbc⟩

/-- handler `getMessages` (src/unnamed/part_005): conversation existence check
(select with limit 1), then the conversation's messages ordered by created_at
ascending with OFFSET applied before LIMIT; limit defaults to 100 and offset
to 0 when omitted.  SQL leaves the relative order of equal timestamps
unspecified; the embedding fixes it with a stable sort. -/
def getMessages (s : DB) (conversation_id : Nat) (limit offset : Option Nat) :
    Except String (List Message) :=
  let conversation :=
    (s.conversations.filter fun c => decide (c.id = conversation_id)).take 1
  if conversation.length = 0 then
    .error "Conversation not found"
  else
    let lim := limit.getD 100
    let off := offset.getD 0
    let results :=
      (((s.messages.filter fun m => decide (m.conversation_id = conversation_id)).insertionSort
          byCreatedAt).drop off).take lim
    .ok results

/-- input of `searchBuddies` (`searchBuddiesInputSchema`): every filter is
optional. -/
structure SearchBuddiesInput where
  location : Option String := none
  skill_level : Option SkillLevel := none
  course_id : Option Nat := none
  time_preference : Option TimePreferenceValue := none
  max_handicap_diff : Option Int := none
deriving DecidableEq, Repr

/-- location condition of `searchBuddies`: the handler pushes an equality
condition only under JavaScript truthiness (`if (input.location)`), so an
absent location and the empty string both impose no constraint. -/
def passesLocation (input : SearchBuddiesInput) (u : User) : Bool :=
  match input.location with
  | none => true
  | some l => if l = "" then true else decide (u.location = l)

/-- skill_level condition of `searchBuddies` (an enum value is always a
non-empty string, hence always truthy when present). -/
def passesSkillLevel (input : SearchBuddiesInput) (u : User) : Bool :=
  match input.skill_level with
  | none => true
  | some sk => decide (u.skill_level = sk)

/-- handicap condition of `searchBuddies`: guarded by
`input.max_handicap_diff !== undefined`, a user passes when the handicap
column is NULL or `ABS(handicap) <= max_handicap_diff`. -/
def passesHandicap (input : SearchBuddiesInput) (u : User) : Bool :=
  match input.max_handicap_diff with
  | none => true
  | some d =>
    match u.handicap with
    | none => true
    | some h => decide (|h| ≤ d)

/-- favorite-course stage of `searchBuddies`: the user_ids favoriting the
course are collected (restricted to the current candidates, mirroring the
`user_id IN candidates` clause) and the candidates are intersected with them. -/
def courseFavoriteStage (s : DB) (course_id : Nat) (results : List User) : List User :=
  let userIds := results.map fun u => u.id
  let usersWithCourse := s.favoriteCourses.filter fun f =>
    decide (f.course_id = course_id ∧ f.user_id ∈ userIds)
  let courseUserIds := usersWithCourse.map fun f => f.user_id
  results.filter fun u => decide (u.id ∈ courseUserIds)

/-- time-preference stage of `searchBuddies`, analogous to the course stage. -/
def timePreferenceStage (s : DB) (tp : TimePreferenceValue) (results : List User) : List User :=
  let userIds := results.map fun u => u.id
  let usersWithTime := s.timePreferences.filter fun t =>
    decide (t.time_preference = tp ∧ t.user_id ∈ userIds)
  let timeUserIds := usersWithTime.map fun t => t.user_id
  results.filter fun u => decide (u.id ∈ timeUserIds)

/-- handler `searchBuddies` (src/server/src/handlers/search_buddies.ts): the
direct conditions (location, skill_level, handicap) are collected into one
AND-ed where-clause over the users table, then the course and time-preference
stages run, each guarded by JavaScript truthiness of its input field
(`input.course_id && filteredResults.length > 0` skips the course stage for a
zero course_id) and by non-emptiness of the current candidate list. -/
def searchBuddies (s : DB) (input : SearchBuddiesInput) : List User :=
  let results := s.users.filter fun u =>
    passesLocation input u && passesSkillLevel input u && passesHandicap input u
  let results₂ :=
    match input.course_id with
    | none => results
    | some c =>
      if c ≠ 0 ∧ results.length > 0 then courseFavoriteStage s c results else results
  let results₃ :=
    match input.time_preference with
    | none => results₂
    | some tp =>
      if results₂.length > 0 then timePreferenceStage s tp results₂ else results₂
  results₃

/-- one mutating call of the remote-procedure surface; used to express "after
any number of later operations" in the temporal claims. -/
inductive Op
  | createBuddyMatchOp (requester_id recipient_id now : Nat)
  | updateBuddyMatchStatusOp (id : Nat) (status : DecisionStatus) (now : Nat)
  | createConversationOp (user1_id user2_id now : Nat)
  | sendMessageOp (conversation_id sender_id : Nat) (content : String) (now : Nat)

/-- state reached after one operation; a failed handler leaves the store
untouched (the source throws before any write happens). -/
def execOp (s : DB) : Op → DB
  | .createBuddyMatchOp a b now =>
    match createBuddyMatch s a b now with
    | .ok (_, s') => s'
    | .error _ => s
  | .updateBuddyMatchStatusOp id st now =>
    match updateBuddyMatchStatus s id st now with
    | .ok (_, s') => s'
    | .error _ => s
  | .createConversationOp a b now =>
    match createConversation s a b now with
    | .ok (_, s') => s'
    | .error _ => s
  | .sendMessageOp cid sid content now =>
    match sendMessage s cid sid content now with
    | .ok (_, s') => s'
    | .error _ => s

/-- state reached after a sequence of operations. -/
def execOps (s : DB) (ops : List Op) : DB :=
  ops.foldl execOp s

/-- some buddy-match row connects the unordered pair, in either direction. -/
def hasMatchBetween (s : DB) (a b : Nat) : Prop :=
  ∃ m ∈ s.buddyMatches,
    (m.requester_id = a ∧ m.recipient_id = b) ∨ (m.requester_id = b ∧ m.recipient_id = a)

theorem createBuddyMatch_ok {s : DB} {a b now : Nat} {m : BuddyMatch} {s' : DB}
    (h : createBuddyMatch s a b now = .ok (m, s')) :
    a ≠ b ∧
    (s.users.filter fun u => decide (u.id = a ∨ u.id = b)).length = 2 ∧
    (s.buddyMatches.filter fun x =>
        decide ((x.requester_id = a ∧ x.recipient_id = b) ∨
                (x.requester_id = b ∧ x.recipient_id = a))) = [] ∧
    m = { id := s.nextMatchId, requester_id := a, recipient_id := b,
          status := MatchStatus.pending, created_at := now, updated_at := now } ∧
    s' = { s with buddyMatches := s.buddyMatches ++ [m],
                  nextMatchId := s.nextMatchId + 1 } := by
  simp only [createBuddyMatch] at h
  split_ifs at h with h1 h2 h3
  rw [Except.ok.injEq, Prod.mk.injEq] at h
  obtain ⟨hm, hs⟩ := h
  subst hm
  subst hs
  refine ⟨h1, by omega, ?_, rfl, rfl⟩
  have hlen0 : (s.buddyMatches.filter fun x =>
      decide ((x.requester_id = a ∧ x.recipient_id = b) ∨
              (x.requester_id = b ∧ x.recipient_id = a))).length = 0 := by omega
  exact List.length_eq_zero.mp hlen0

theorem createBuddyMatch_error_of_hasMatchBetween {s : DB} {a b now : Nat}
    (hab : a ≠ b)
    (husers : (s.users.filter fun u => decide (u.id = a ∨ u.id = b)).length = 2)
    (hdup : hasMatchBetween s a b) :
    createBuddyMatch s a b now = .error "Buddy match already exists between these users" := by
  obtain ⟨m, hm, hconn⟩ := hdup
  have hmem : m ∈ s.buddyMatches.filter fun x =>
      decide ((x.requester_id = a ∧ x.recipient_id = b) ∨
              (x.requester_id = b ∧ x.recipient_id = a)) := by
    simp only [List.mem_filter, decide_eq_true_eq]
    exact ⟨hm, hconn⟩
  have hlen : 0 < (s.buddyMatches.filter fun x =>
      decide ((x.requester_id = a ∧ x.recipient_id = b) ∨
              (x.requester_id = b ∧ x.recipient_id = a))).length :=
    List.length_pos.mpr (List.ne_nil_of_mem hmem)
  simp only [createBuddyMatch, if_neg hab, husers]
  rw [if_neg (by simp), if_pos hlen]

theorem updateBuddyMatchStatus_error_of_no_pending {s : DB} {id : Nat}
    {st : DecisionStatus} {now : Nat}
    (h : ∀ m ∈ s.buddyMatches, m.id = id → m.status ≠ MatchStatus.pending) :
    updateBuddyMatchStatus s id st now =
      .error "Buddy match not found or not in pending status" := by
  have hfil : s.buddyMatches.filter
      (fun m => decide (m.id = id ∧ m.status = MatchStatus.pending)) = [] := by
    simp only [List.filter_eq_nil_iff, decide_eq_true_eq, not_and]
    exact h
  simp only [updateBuddyMatchStatus, hfil]

theorem updateBuddyMatchStatus_ok_iff {s : DB} {id : Nat} {st : DecisionStatus} {now : Nat} :
    (∃ r s', updateBuddyMatchStatus s id st now = .ok (r, s')) ↔
      ∃ m ∈ s.buddyMatches, m.id = id ∧ m.status = MatchStatus.pending := by
  constructor
  · rintro ⟨r, s', h⟩
    by_contra hno
    push_neg at hno
    rw [updateBuddyMatchStatus_error_of_no_pending hno] at h
    cases h
  · rintro ⟨m, hm, hid, hpend⟩
    rcases hcons : s.buddyMatches.filter
        (fun x => decide (x.id = id ∧ x.status = MatchStatus.pending)) with _ | ⟨m0, rest⟩
    · have : m ∈ s.buddyMatches.filter
          (fun x => decide (x.id = id ∧ x.status = MatchStatus.pending)) :=
        List.mem_filter.mpr ⟨hm, by simp [hid, hpend]⟩
      rw [hcons] at this
      cases this
    · have hm0 : m0 ∈ s.buddyMatches ∧ m0.id = id ∧ m0.status = MatchStatus.pending := by
        have : m0 ∈ s.buddyMatches.filter
            (fun x => decide (x.id = id ∧ x.status = MatchStatus.pending)) := by
          rw [hcons]; exact List.mem_cons_self m0 rest
        simpa using List.mem_filter.mp this
      have hmap : (fun bm => if bm.id = id then
            { bm with status := st.toMatchStatus, updated_at := now } else bm) m0 ∈
          s.buddyMatches.map (fun bm => if bm.id = id then
            { bm with status := st.toMatchStatus, updated_at := now } else bm) :=
        List.mem_map_of_mem _ hm0.1
      have hmem2 : (fun bm => if bm.id = id then
            { bm with status := st.toMatchStatus, updated_at := now } else bm) m0 ∈
          (s.buddyMatches.map (fun bm => if bm.id = id then
            { bm with status := st.toMatchStatus, updated_at := now } else bm)).filter
            (fun bm => decide (bm.id = id)) := by
        refine List.mem_filter.mpr ⟨hmap, ?_⟩
        simp [hm0.2.1]
      rcases hcons2 : (s.buddyMatches.map (fun bm => if bm.id = id then
          { bm with status := st.toMatchStatus, updated_at := now } else bm)).filter
            (fun bm => decide (bm.id = id)) with _ | ⟨r0, rest2⟩
      · rw [hcons2] at hmem2
        cases hmem2
      · simp only [updateBuddyMatchStatus, hcons, hcons2]
        exact ⟨r0, _, rfl⟩

theorem updateBuddyMatchStatus_ok_state {s : DB} {id : Nat} {st : DecisionStatus} {now : Nat}
    {r : BuddyMatch} {s' : DB}
    (h : updateBuddyMatchStatus s id st now = .ok (r, s')) :
    s'.users = s.users ∧ s'.messages = s.messages ∧
    s'.favoriteCourses = s.favoriteCourses ∧ s'.timePreferences = s.timePreferences ∧
    s'.nextMessageId = s.nextMessageId ∧ s'.nextMatchId = s.nextMatchId ∧
    s'.buddyMatches = s.buddyMatches.map (fun bm =>
      if bm.id = id then { bm with status := st.toMatchStatus, updated_at := now } else bm) ∧
    (s'.conversations = s.conversations ∨ ∃ c, s'.conversations = s.conversations ++ [c]) := by
  simp only [updateBuddyMatchStatus] at h
  rcases hcons : s.buddyMatches.filter
      (fun x => decide (x.id = id ∧ x.status = MatchStatus.pending)) with _ | ⟨m0, rest⟩ <;>
    rw [hcons] at h
  · cases h
  · rcases hcons2 : (s.buddyMatches.map (fun bm => if bm.id = id then
        { bm with status := st.toMatchStatus, updated_at := now } else bm)).filter
          (fun bm => decide (bm.id = id)) with _ | ⟨r0, rest2⟩ <;>
      simp only [hcons2] at h
    · cases h
    · rw [Except.ok.injEq, Prod.mk.injEq] at h
      obtain ⟨hr, hs⟩ := h
      subst hs
      refine ⟨?_, ?_, ?_, ?_, ?_, ?_, ?_, ?_⟩ <;> split_ifs <;> simp

theorem updateBuddyMatchStatus_declined_state {s : DB} {id now : Nat}
    {r : BuddyMatch} {s' : DB}
    (h : updateBuddyMatchStatus s id DecisionStatus.declined now = .ok (r, s')) :
    s'.conversations = s.conversations ∧ s'.nextConversationId = s.nextConversationId := by
  simp only [updateBuddyMatchStatus] at h
  rcases hcons : s.buddyMatches.filter
      (fun x => decide (x.id = id ∧ x.status = MatchStatus.pending)) with _ | ⟨m0, rest⟩ <;>
    rw [hcons] at h
  · cases h
  · rcases hcons2 : (s.buddyMatches.map (fun bm => if bm.id = id then
        { bm with status := DecisionStatus.declined.toMatchStatus, updated_at := now }
        else bm)).filter (fun bm => decide (bm.id = id)) with _ | ⟨r0, rest2⟩ <;>
      simp only [hcons2] at h
    · cases h
    · rw [Except.ok.injEq, Prod.mk.injEq] at h
      obtain ⟨hr, hs⟩ := h
      subst hs
      simp

theorem updateBuddyMatchStatus_accepted_conversations {s : DB} {id now : Nat}
    {m0 : BuddyMatch} {rest : List BuddyMatch}
    (hcons : s.buddyMatches.filter
      (fun x => decide (x.id = id ∧ x.status = MatchStatus.pending)) = m0 :: rest)
    {r : BuddyMatch} {s' : DB}
    (h : updateBuddyMatchStatus s id DecisionStatus.accepted now = .ok (r, s')) :
    ((∃ c ∈ s.conversations,
        (c.user1_id = m0.requester_id ∧ c.user2_id = m0.recipient_id) ∨
        (c.user1_id = m0.recipient_id ∧ c.user2_id = m0.requester_id)) →
      s'.conversations = s.conversations ∧ s'.nextConversationId = s.nextConversationId) ∧
    ((¬ ∃ c ∈ s.conversations,
        (c.user1_id = m0.requester_id ∧ c.user2_id = m0.recipient_id) ∨
        (c.user1_id = m0.recipient_id ∧ c.user2_id = m0.requester_id)) →
      s'.conversations = s.conversations ++
        [{ id := s.nextConversationId, user1_id := m0.requester_id,
           user2_id := m0.recipient_id, created_at := now, updated_at := now }] ∧
      s'.nextConversationId = s.nextConversationId + 1) := by
  simp only [updateBuddyMatchStatus] at h
  rw [hcons] at h
  rcases hcons2 : (s.buddyMatches.map (fun bm => if bm.id = id then
      { bm with status := DecisionStatus.accepted.toMatchStatus, updated_at := now }
      else bm)).filter (fun bm => decide (bm.id = id)) with _ | ⟨r0, rest2⟩ <;>
    simp only [hcons2] at h
  · cases h
  · rw [Except.ok.injEq, Prod.mk.injEq] at h
    obtain ⟨hr, hs⟩ := h
    subst hs
    simp only [if_true]
    constructor
    · intro hex
      split_ifs with hcond
      · exfalso
        rw [Bool.and_eq_true, beq_iff_eq, beq_iff_eq] at hcond
        obtain ⟨hA, hB⟩ := hcond
        rw [List.length_eq_zero] at hA hB
        obtain ⟨c, hc, hdir | hrev⟩ := hex
        · have hcmem : c ∈ s.conversations.filter fun c =>
              decide (c.user1_id = m0.requester_id ∧ c.user2_id = m0.recipient_id) :=
            List.mem_filter.mpr ⟨hc, by simp [hdir.1, hdir.2]⟩
          rw [hA] at hcmem
          cases hcmem
        · have hcmem : c ∈ s.conversations.filter fun c =>
              decide (c.user1_id = m0.recipient_id ∧ c.user2_id = m0.requester_id) :=
            List.mem_filter.mpr ⟨hc, by simp [hrev.1, hrev.2]⟩
          rw [hB] at hcmem
          cases hcmem
      · exact ⟨rfl, rfl⟩
    · intro hnex
      have h1 : s.conversations.filter (fun c =>
          decide (c.user1_id = m0.requester_id ∧ c.user2_id = m0.recipient_id)) = [] := by
        rw [List.filter_eq_nil_iff]
        intro c hc
        simp only [decide_eq_true_eq, not_and]
        intro hu1 hu2
        exact hnex ⟨c, hc, Or.inl ⟨hu1, hu2⟩⟩
      have h2 : s.conversations.filter (fun c =>
          decide (c.user1_id = m0.recipient_id ∧ c.user2_id = m0.requester_id)) = [] := by
        rw [List.filter_eq_nil_iff]
        intro c hc
        simp only [decide_eq_true_eq, not_and]
        intro hu1 hu2
        exact hnex ⟨c, hc, Or.inr ⟨hu1, hu2⟩⟩
      split_ifs with hcond
      · exact ⟨rfl, rfl⟩
      · exfalso
        apply hcond
        rw [h1, h2]
        rfl

theorem createConversation_found {s : DB} {a b now : Nat}
    (hab : a ≠ b)
    (husers : (s.users.filter fun u => decide (u.id = a ∨ u.id = b)).length = 2)
    {c0 : Conversation} {rest : List Conversation}
    (hcons : s.conversations.filter
      (fun c => decide (c.user1_id = min a b ∧ c.user2_id = max a b)) = c0 :: rest) :
    createConversation s a b now = .ok (c0, s) := by
  simp only [createConversation, if_neg hab, husers]
  rw [if_neg (by simp), hcons]

theorem createConversation_insert {s : DB} {a b now : Nat}
    (hab : a ≠ b)
    (husers : (s.users.filter fun u => decide (u.id = a ∨ u.id = b)).length = 2)
    (hnil : s.conversations.filter
      (fun c => decide (c.user1_id = min a b ∧ c.user2_id = max a b)) = []) :
    createConversation s a b now =
      .ok ({ id := s.nextConversationId, user1_id := min a b, user2_id := max a b,
             created_at := now, updated_at := now },
           { s with
               conversations := s.conversations ++
                 [{ id := s.nextConversationId, user1_id := min a b, user2_id := max a b,
                    created_at := now, updated_at := now }]
               nextConversationId := s.nextConversationId + 1 }) := by
  simp only [createConversation, if_neg hab, husers]
  rw [if_neg (by simp), hnil]

theorem createConversation_comm (s : DB) (a b now : Nat) :
    createConversation s a b now = createConversation s b a now := by
  by_cases hab : a = b
  · subst hab
    rfl
  · simp only [createConversation, if_neg hab, if_neg (Ne.symm hab)]
    have husers : (s.users.filter fun u => decide (u.id = a ∨ u.id = b)) =
        (s.users.filter fun u => decide (u.id = b ∨ u.id = a)) :=
      List.filter_congr fun u _ => by rw [decide_eq_decide]; exact or_comm
    rw [husers, Nat.min_comm a b, Nat.max_comm a b]

theorem createConversation_ok_state {s : DB} {a b now : Nat} {c : Conversation} {s' : DB}
    (h : createConversation s a b now = .ok (c, s')) :
    s'.users = s.users ∧ s'.messages = s.messages ∧ s'.buddyMatches = s.buddyMatches ∧
    s'.favoriteCourses = s.favoriteCourses ∧ s'.timePreferences = s.timePreferences ∧
    s'.nextMatchId = s.nextMatchId ∧ s'.nextMessageId = s.nextMessageId ∧
    (s'.conversations = s.conversations ∨ ∃ nc, s'.conversations = s.conversations ++ [nc]) := by
  simp only [createConversation] at h
  split_ifs at h with h1 h2
  rcases hcons : s.conversations.filter
      (fun c => decide (c.user1_id = min a b ∧ c.user2_id = max a b)) with _ | ⟨c0, rest⟩ <;>
    rw [hcons] at h <;> rw [Except.ok.injEq, Prod.mk.injEq] at h <;> obtain ⟨hc, hs⟩ := h <;>
    subst hs
  · exact ⟨rfl, rfl, rfl, rfl, rfl, rfl, rfl, Or.inr ⟨_, rfl⟩⟩
  · exact ⟨rfl, rfl, rfl, rfl, rfl, rfl, rfl, Or.inl rfl⟩

theorem sendMessage_error_of_no_participant {s : DB} {cid sid : Nat} {content : String}
    {now : Nat}
    (h : ∀ c ∈ s.conversations, ¬(c.id = cid ∧ (c.user1_id = sid ∨ c.user2_id = sid))) :
    sendMessage s cid sid content now =
      .error "Conversation not found or sender is not a participant" := by
  have hfil : s.conversations.filter
      (fun c => decide (c.id = cid ∧ (c.user1_id = sid ∨ c.user2_id = sid))) = [] := by
    rw [List.filter_eq_nil_iff]
    intro c hc
    simpa using h c hc
  simp only [sendMessage, hfil]
  rfl

theorem sendMessage_ok_state {s : DB} {cid sid : Nat} {content : String} {now : Nat}
    {msg : Message} {s' : DB}
    (h : sendMessage s cid sid content now = .ok (msg, s')) :
    (∃ c ∈ s.conversations, c.id = cid ∧ (c.user1_id = sid ∨ c.user2_id = sid)) ∧
    msg = { id := s.nextMessageId, conversation_id := cid, sender_id := sid,
            content := content, status := MessageStatus.sent, created_at := now } ∧
    s'.users = s.users ∧ s'.buddyMatches = s.buddyMatches ∧
    s'.favoriteCourses = s.favoriteCourses ∧ s'.timePreferences = s.timePreferences ∧
    s'.nextMatchId = s.nextMatchId ∧ s'.nextConversationId = s.nextConversationId ∧
    s'.nextMessageId = s.nextMessageId + 1 ∧
    s'.messages = s.messages ++ [msg] ∧
    s'.conversations = s.conversations.map
      (fun c => if c.id = cid then { c with updated_at := now } else c) := by
  simp only [sendMessage] at h
  split_ifs at h with h0
  rw [Except.ok.injEq, Prod.mk.injEq] at h
  obtain ⟨hmsg, hs⟩ := h
  subst hs
  subst hmsg
  refine ⟨?_, rfl, rfl, rfl, rfl, rfl, rfl, rfl, rfl, rfl, rfl⟩
  rcases hfil : s.conversations.filter
      (fun c => decide (c.id = cid ∧ (c.user1_id = sid ∨ c.user2_id = sid))) with _ | ⟨c0, rest⟩
  · rw [hfil, List.length_nil] at h0
    exact absurd rfl h0
  · have : c0 ∈ s.conversations.filter
        (fun c => decide (c.id = cid ∧ (c.user1_id = sid ∨ c.user2_id = sid))) := by
      rw [hfil]
      exact List.mem_cons_self c0 rest
    have hc0 := List.mem_filter.mp this
    exact ⟨c0, hc0.1, by simpa using hc0.2⟩

theorem sendMessage_ok_of_participant {s : DB} {cid sid : Nat} {content : String} {now : Nat}
    (hex : ∃ c ∈ s.conversations, c.id = cid ∧ (c.user1_id = sid ∨ c.user2_id = sid)) :
    ∃ msg s', sendMessage s cid sid content now = .ok (msg, s') := by
  obtain ⟨c, hc, hcond⟩ := hex
  have hmem : c ∈ s.conversations.filter
      (fun c => decide (c.id = cid ∧ (c.user1_id = sid ∨ c.user2_id = sid))) :=
    List.mem_filter.mpr ⟨hc, by simpa using hcond⟩
  have hlen : (s.conversations.filter
      (fun c => decide (c.id = cid ∧ (c.user1_id = sid ∨ c.user2_id = sid)))).length ≠ 0 := by
    intro h0
    rw [List.length_eq_zero] at h0
    rw [h0] at hmem
    cases hmem
  simp only [sendMessage, if_neg hlen]
  exact ⟨_, _, rfl⟩

theorem execOp_users (s : DB) (op : Op) : (execOp s op).users = s.users := by
  cases op with
  | createBuddyMatchOp a b now =>
    rcases h : createBuddyMatch s a b now with e | ⟨m, s'⟩ <;> simp only [execOp, h]
    rw [(createBuddyMatch_ok h).2.2.2.2]
  | updateBuddyMatchStatusOp id st now =>
    rcases h : updateBuddyMatchStatus s id st now with e | ⟨r, s'⟩ <;> simp only [execOp, h]
    exact (updateBuddyMatchStatus_ok_state h).1
  | createConversationOp a b now =>
    rcases h : createConversation s a b now with e | ⟨c, s'⟩ <;> simp only [execOp, h]
    exact (createConversation_ok_state h).1
  | sendMessageOp cid sid content now =>
    rcases h : sendMessage s cid sid content now with e | ⟨m, s'⟩ <;> simp only [execOp, h]
    exact (sendMessage_ok_state h).2.2.1

theorem execOp_hasMatchBetween {s : DB} {a b : Nat} (op : Op) (hm : hasMatchBetween s a b) :
    hasMatchBetween (execOp s op) a b := by
  obtain ⟨m, hmem, hconn⟩ := hm
  cases op with
  | createBuddyMatchOp a' b' now =>
    rcases h : createBuddyMatch s a' b' now with e | ⟨m', s'⟩ <;> simp only [execOp, h]
    · exact ⟨m, hmem, hconn⟩
    · rw [hasMatchBetween, (createBuddyMatch_ok h).2.2.2.2]
      exact ⟨m, List.mem_append_left _ hmem, hconn⟩
  | updateBuddyMatchStatusOp id st now =>
    rcases h : updateBuddyMatchStatus s id st now with e | ⟨r, s'⟩ <;> simp only [execOp, h]
    · exact ⟨m, hmem, hconn⟩
    · rw [hasMatchBetween, (updateBuddyMatchStatus_ok_state h).2.2.2.2.2.2.1]
      refine ⟨(fun bm => if bm.id = id then
          { bm with status := st.toMatchStatus, updated_at := now } else bm) m,
        List.mem_map_of_mem _ hmem, ?_⟩
      dsimp only
      split_ifs with hid <;> simpa using hconn
  | createConversationOp a' b' now =>
    rcases h : createConversation s a' b' now with e | ⟨c, s'⟩ <;> simp only [execOp, h]
    · exact ⟨m, hmem, hconn⟩
    · rw [hasMatchBetween, (createConversation_ok_state h).2.2.1]
      exact ⟨m, hmem, hconn⟩
  | sendMessageOp cid sid content now =>
    rcases h : sendMessage s cid sid content now with e | ⟨msg, s'⟩ <;> simp only [execOp, h]
    · exact ⟨m, hmem, hconn⟩
    · rw [hasMatchBetween, (sendMessage_ok_state h).2.2.2.1]
      exact ⟨m, hmem, hconn⟩

theorem execOp_pending_invariant {s : DB} {id : Nat} (op : Op)
    (inv : id < s.nextMatchId ∧
      ∀ m ∈ s.buddyMatches, m.id = id → m.status ≠ MatchStatus.pending) :
    id < (execOp s op).nextMatchId ∧
      ∀ m ∈ (execOp s op).buddyMatches, m.id = id → m.status ≠ MatchStatus.pending := by
  obtain ⟨hlt, hnp⟩ := inv
  cases op with
  | createBuddyMatchOp a b now =>
    rcases h : createBuddyMatch s a b now with e | ⟨m', s'⟩ <;> simp only [execOp, h]
    · exact ⟨hlt, hnp⟩
    · obtain ⟨-, -, -, hm', hs'⟩ := createBuddyMatch_ok h
      subst hs'
      refine ⟨by simpa using Nat.lt_succ_of_lt hlt, ?_⟩
      intro m hm hid
      rcases List.mem_append.mp hm with hleft | hright
      · exact hnp m hleft hid
      · rw [List.mem_singleton] at hright
        subst hright
        rw [hm'] at hid
        simp only at hid
        omega
  | updateBuddyMatchStatusOp id' st now =>
    rcases h : updateBuddyMatchStatus s id' st now with e | ⟨r, s'⟩ <;> simp only [execOp, h]
    · exact ⟨hlt, hnp⟩
    · obtain hst := updateBuddyMatchStatus_ok_state h
      refine ⟨by rw [hst.2.2.2.2.2.1]; exact hlt, ?_⟩
      rw [hst.2.2.2.2.2.2.1]
      intro m hm hid
      obtain ⟨m0, hm0, hfm0⟩ := List.mem_map.mp hm
      subst hfm0
      by_cases hid' : m0.id = id'
      · rw [if_pos hid']
        cases st <;> simp [DecisionStatus.toMatchStatus]
      · rw [if_neg hid'] at hid ⊢
        exact hnp m0 hm0 hid
  | createConversationOp a b now =>
    rcases h : createConversation s a b now with e | ⟨c, s'⟩ <;> simp only [execOp, h]
    · exact ⟨hlt, hnp⟩
    · obtain hst := createConversation_ok_state h
      rw [hst.2.2.1, hst.2.2.2.2.2.1]
      exact ⟨hlt, hnp⟩
  | sendMessageOp cid sid content now =>
    rcases h : sendMessage s cid sid content now with e | ⟨msg, s'⟩ <;> simp only [execOp, h]
    · exact ⟨hlt, hnp⟩
    · obtain hst := sendMessage_ok_state h
      rw [hst.2.2.2.1, hst.2.2.2.2.2.2.1]
      exact ⟨hlt, hnp⟩

theorem execOps_cons (s : DB) (op : Op) (ops : List Op) :
    execOps s (op :: ops) = execOps (execOp s op) ops := rfl

theorem execOps_users (s : DB) (ops : List Op) : (execOps s ops).users = s.users := by
  induction ops generalizing s with
  | nil => rfl
  | cons op ops ih =>
    rw [execOps_cons]
    exact (ih (execOp s op)).trans (execOp_users s op)

theorem execOps_hasMatchBetween {s : DB} {a b : Nat} (ops : List Op)
    (hm : hasMatchBetween s a b) : hasMatchBetween (execOps s ops) a b := by
  induction ops generalizing s with
  | nil => exact hm
  | cons op ops ih =>
    rw [execOps_cons]
    exact ih (execOp_hasMatchBetween op hm)

theorem execOps_pending_invariant {s : DB} {id : Nat} (ops : List Op)
    (inv : id < s.nextMatchId ∧
      ∀ m ∈ s.buddyMatches, m.id = id → m.status ≠ MatchStatus.pending) :
    id < (execOps s ops).nextMatchId ∧
      ∀ m ∈ (execOps s ops).buddyMatches, m.id = id → m.status ≠ MatchStatus.pending := by
  induction ops generalizing s with
  | nil => exact inv
  | cons op ops ih =>
    rw [execOps_cons]
    exact ih (execOp_pending_invariant op inv)

theorem getMessages_error_of_no_conversation {s : DB} {cid : Nat} {limit offset : Option Nat}
    (h : ∀ c ∈ s.conversations, c.id ≠ cid) :
    getMessages s cid limit offset = .error "Conversation not found" := by
  have hfil : s.conversations.filter (fun c => decide (c.id = cid)) = [] := by
    rw [List.filter_eq_nil_iff]
    intro c hc
    simpa using h c hc
  simp only [getMessages, hfil]
  rfl

theorem getMessages_ok_of_conversation {s : DB} {cid : Nat} {limit offset : Option Nat}
    (hex : ∃ c ∈ s.conversations, c.id = cid) :
    getMessages s cid limit offset =
      .ok ((((s.messages.filter fun m =>
          decide (m.conversation_id = cid)).insertionSort byCreatedAt).drop
            (offset.getD 0)).take (limit.getD 100)) := by
  obtain ⟨c, hc, hcid⟩ := hex
  have hmem : c ∈ s.conversations.filter (fun c => decide (c.id = cid)) :=
    List.mem_filter.mpr ⟨hc, by simpa using hcid⟩
  have hlen : ((s.conversations.filter (fun c => decide (c.id = cid))).take 1).length ≠ 0 := by
    intro h0
    rw [List.length_take] at h0
    have hnil : (s.conversations.filter (fun c => decide (c.id = cid))).length = 0 := by omega
    rw [List.length_eq_zero] at hnil
    rw [hnil] at hmem
    cases hmem
  simp only [getMessages, if_neg hlen]

/-- per-user reading of the course stage of `searchBuddies`: vacuous when no
course_id is supplied or when it is the (falsy) zero id. -/
def passesCourse (s : DB) (input : SearchBuddiesInput) (u : User) : Prop :=
  match input.course_id with
  | none => True
  | some c => c = 0 ∨ ∃ f ∈ s.favoriteCourses, f.course_id = c ∧ f.user_id = u.id

/-- per-user reading of the time-preference stage of `searchBuddies`. -/
def passesTime (s : DB) (input : SearchBuddiesInput) (u : User) : Prop :=
  match input.time_preference with
  | none => True
  | some tp => ∃ t ∈ s.timePreferences, t.time_preference = tp ∧ t.user_id = u.id

theorem mem_courseFavoriteStage {s : DB} {cid : Nat} {results : List User} {u : User} :
    u ∈ courseFavoriteStage s cid results ↔
      u ∈ results ∧ ∃ f ∈ s.favoriteCourses, f.course_id = cid ∧ f.user_id = u.id := by
  simp only [courseFavoriteStage]
  constructor
  · intro hmem
    have h1 := List.mem_filter.mp hmem
    refine ⟨h1.1, ?_⟩
    have h2 : u.id ∈ (s.favoriteCourses.filter fun f =>
        decide (f.course_id = cid ∧ f.user_id ∈ results.map (fun u => u.id))).map
          (fun f => f.user_id) := by
      simpa using h1.2
    obtain ⟨f, hf, hfu⟩ := List.mem_map.mp h2
    have h3 := List.mem_filter.mp hf
    have h4 : f.course_id = cid ∧ f.user_id ∈ results.map (fun u => u.id) := by
      simpa using h3.2
    exact ⟨f, h3.1, h4.1, hfu⟩
  · rintro ⟨hu, f, hf, hcid, hfu⟩
    refine List.mem_filter.mpr ⟨hu, ?_⟩
    have hfin : f ∈ s.favoriteCourses.filter fun f =>
        decide (f.course_id = cid ∧ f.user_id ∈ results.map (fun u => u.id)) := by
      refine List.mem_filter.mpr ⟨hf, ?_⟩
      simp only [decide_eq_true_eq]
      refine ⟨hcid, ?_⟩
      rw [hfu]
      exact List.mem_map_of_mem _ hu
    simp only [decide_eq_true_eq]
    rw [← hfu]
    exact List.mem_map_of_mem _ hfin

theorem mem_timePreferenceStage {s : DB} {tp : TimePreferenceValue} {results : List User}
    {u : User} :
    u ∈ timePreferenceStage s tp results ↔
      u ∈ results ∧ ∃ t ∈ s.timePreferences, t.time_preference = tp ∧ t.user_id = u.id := by
  simp only [timePreferenceStage]
  constructor
  · intro hmem
    have h1 := List.mem_filter.mp hmem
    refine ⟨h1.1, ?_⟩
    have h2 : u.id ∈ (s.timePreferences.filter fun t =>
        decide (t.time_preference = tp ∧ t.user_id ∈ results.map (fun u => u.id))).map
          (fun t => t.user_id) := by
      simpa using h1.2
    obtain ⟨t, ht, htu⟩ := List.mem_map.mp h2
    have h3 := List.mem_filter.mp ht
    have h4 : t.time_preference = tp ∧ t.user_id ∈ results.map (fun u => u.id) := by
      simpa using h3.2
    exact ⟨t, h3.1, h4.1, htu⟩
  · rintro ⟨hu, t, ht, htp, htu⟩
    refine List.mem_filter.mpr ⟨hu, ?_⟩
    have htin : t ∈ s.timePreferences.filter fun t =>
        decide (t.time_preference = tp ∧ t.user_id ∈ results.map (fun u => u.id)) := by
      refine List.mem_filter.mpr ⟨ht, ?_⟩
      simp only [decide_eq_true_eq]
      refine ⟨htp, ?_⟩
      rw [htu]
      exact List.mem_map_of_mem _ hu
    simp only [decide_eq_true_eq]
    rw [← htu]
    exact List.mem_map_of_mem _ htin

theorem mem_searchBuddies {s : DB} {input : SearchBuddiesInput} {u : User} :
    u ∈ searchBuddies s input ↔
      u ∈ s.users ∧ passesLocation input u = true ∧ passesSkillLevel input u = true ∧
      passesHandicap input u = true ∧ passesCourse s input u ∧ passesTime s input u := by
  simp only [searchBuddies]
  have hbase : ∀ v : User, v ∈ s.users.filter (fun v =>
      passesLocation input v && passesSkillLevel input v && passesHandicap input v) ↔
      v ∈ s.users ∧ passesLocation input v = true ∧ passesSkillLevel input v = true ∧
        passesHandicap input v = true := by
    intro v
    rw [List.mem_filter, Bool.and_eq_true, Bool.and_eq_true, and_assoc]
  set base := s.users.filter (fun v =>
    passesLocation input v && passesSkillLevel input v && passesHandicap input v) with hbdef
  have hstage2 : ∀ v : User,
      (v ∈ (match input.course_id with
        | none => base
        | some c => if c ≠ 0 ∧ base.length > 0 then courseFavoriteStage s c base else base)) ↔
      v ∈ base ∧ passesCourse s input v := by
    intro v
    cases hci : input.course_id with
    | none => simp [passesCourse, hci]
    | some c =>
      simp only [passesCourse, hci]
      split_ifs with hcl
      · rw [mem_courseFavoriteStage]
        constructor
        · rintro ⟨hv, f, hf⟩
          exact ⟨hv, Or.inr ⟨f, hf⟩⟩
        · rintro ⟨hv, hc0 | hex⟩
          · exact absurd hc0 hcl.1
          · exact ⟨hv, hex⟩
      · by_cases hc0 : c = 0
        · simp [hc0]
        · have hlen : base.length = 0 := by
            rcases Nat.eq_zero_or_pos base.length with h0 | hpos
            · exact h0
            · exact absurd ⟨hc0, hpos⟩ hcl
          rw [List.length_eq_zero] at hlen
          simp [hlen]
  set stage2 := (match input.course_id with
    | none => base
    | some c => if c ≠ 0 ∧ base.length > 0 then courseFavoriteStage s c base else base)
    with hs2def
  have hstage3 : ∀ v : User,
      (v ∈ (match input.time_preference with
        | none => stage2
        | some tp => if stage2.length > 0 then timePreferenceStage s tp stage2 else stage2)) ↔
      v ∈ stage2 ∧ passesTime s input v := by
    intro v
    cases hti : input.time_preference with
    | none => simp [passesTime, hti]
    | some tp =>
      simp only [passesTime, hti]
      split_ifs with hl
      · rw [mem_timePreferenceStage]
      · have hlen : stage2.length = 0 := by omega
        rw [List.length_eq_zero] at hlen
        simp [hlen]
  rw [hstage3 u, hstage2 u, hbase u]
  tauto

/-- sample user with id 1 used by the concrete witnesses. -/
def sampleUser1 : User :=
  { id := 1, email := "ann@example.com", username := "ann", full_name := "Ann A"
    skill_level := SkillLevel.intermediate, handicap := some 10, location := "San Francisco"
    bio := none, home_course := none, created_at := 0, updated_at := 0 }

/-- sample user with id 2 (a beginner without handicap). -/
def sampleUser2 : User :=
  { id := 2, email := "bob@example.com", username := "bob", full_name := "Bob B"
    skill_level := SkillLevel.beginner, handicap := none, location := "San Francisco"
    bio := none, home_course := none, created_at := 0, updated_at := 0 }

/-- store holding just the two sample users. -/
def sampleDB : DB :=
  { users := [sampleUser1, sampleUser2], conversations := [], messages := []
    buddyMatches := [], favoriteCourses := [], timePreferences := []
    nextConversationId := 1, nextMessageId := 1, nextMatchId := 1 }

/-- number of conversation rows stored for the normalized pair of a and b. -/
def conversationPairCount (s : DB) (a b : Nat) : Nat :=
  (s.conversations.filter fun c =>
    decide (c.user1_id = min a b ∧ c.user2_id = max a b)).length

/-- state after one `createConversation` call, keeping the store on failure. -/
def createConversationRun (x y now : Nat) (s : DB) : DB :=
  match createConversation s x y now with
  | .ok (_, s') => s'
  | .error _ => s

theorem createConversation_state_cases {s : DB} {a b now : Nat} {c : Conversation} {s' : DB}
    (h : createConversation s a b now = .ok (c, s')) :
    s' = s ∨
    (s.conversations.filter
        (fun c => decide (c.user1_id = min a b ∧ c.user2_id = max a b)) = [] ∧
      s'.conversations = s.conversations ++
        [{ id := s.nextConversationId, user1_id := min a b, user2_id := max a b,
           created_at := now, updated_at := now }]) := by
  simp only [createConversation] at h
  split_ifs at h with h1 h2
  rcases hcons : s.conversations.filter
      (fun c => decide (c.user1_id = min a b ∧ c.user2_id = max a b)) with _ | ⟨c0, rest⟩ <;>
    rw [hcons] at h <;> rw [Except.ok.injEq, Prod.mk.injEq] at h <;> obtain ⟨hc, hs⟩ := h <;>
    subst hs
  · exact Or.inr ⟨hcons, rfl⟩
  · exact Or.inl rfl

theorem conversationPairCount_run_preserved {st : DB} {a b x y : Nat} (now : Nat)
    (hmin : min x y = min a b) (hmax : max x y = max a b)
    (h1 : conversationPairCount st a b = 1) :
    conversationPairCount (createConversationRun x y now st) a b = 1 := by
  unfold createConversationRun
  rcases h : createConversation st x y now with e | ⟨c, st'⟩ <;> simp only [h]
  · exact h1
  · rcases createConversation_state_cases h with hsame | ⟨hnil, -⟩
    · subst hsame
      exact h1
    · exfalso
      rw [hmin, hmax] at hnil
      unfold conversationPairCount at h1
      rw [hnil] at h1
      simp at h1

theorem conversationPairCount_after_insert {s : DB} {a b now : Nat}
    (hab : a ≠ b)
    (husers : (s.users.filter fun u => decide (u.id = a ∨ u.id = b)).length = 2)
    (hzero : conversationPairCount s a b = 0) :
    conversationPairCount (createConversationRun a b now s) a b = 1 := by
  have hnil : s.conversations.filter
      (fun c => decide (c.user1_id = min a b ∧ c.user2_id = max a b)) = [] := by
    unfold conversationPairCount at hzero
    exact List.length_eq_zero.mp hzero
  unfold createConversationRun
  rw [createConversation_insert hab husers hnil]
  unfold conversationPairCount
  rw [List.filter_append, hnil]
  simp

/-- C1: the spec's critical invariant says every conversation row ever written
has user1_id < user2_id; the match-acceptance side effect of
`updateBuddyMatchStatus` violates it: accepting a pending match whose
requester id is larger than the recipient id inserts the pair as-is.  Trace:
from the two-user store, createBuddyMatch(2, 1) then accepting match 1 writes
the conversation row (user1_id = 2, user2_id = 1), and 2 < 1 is false. -/
theorem C1_acceptance_inserts_unnormalized_pair :
    (execOps sampleDB
      [Op.createBuddyMatchOp 2 1 3,
       Op.updateBuddyMatchStatusOp 1 DecisionStatus.accepted 4]).conversations =
      [{ id := 1, user1_id := 2, user2_id := 1, created_at := 4, updated_at := 4 }] ∧
    ¬ (2 : Nat) < 1 := by
  constructor
  · rfl
  · decide

/-- C2: conversation get-or-create (modelled from the spec, §4.2) is symmetric
and idempotent: for existing users a ≠ b the two argument orders return the
same result; when a row for the normalized pair exists it is returned with the
store unchanged; when none exists the normalized row is inserted, and after
the first call any further calls in either order leave exactly one row for
the pair. -/
theorem C2_get_or_create_symmetric_idempotent (s : DB) (a b now : Nat)
    (hab : a ≠ b)
    (husers : (s.users.filter fun u => decide (u.id = a ∨ u.id = b)).length = 2) :
    createConversation s a b now = createConversation s b a now ∧
    (0 < conversationPairCount s a b →
      ∃ c0, createConversation s a b now = .ok (c0, s)) ∧
    (conversationPairCount s a b = 0 →
      createConversation s a b now =
        .ok ({ id := s.nextConversationId, user1_id := min a b, user2_id := max a b,
               created_at := now, updated_at := now },
             { s with
                 conversations := s.conversations ++
                   [{ id := s.nextConversationId, user1_id := min a b, user2_id := max a b,
                      created_at := now, updated_at := now }]
                 nextConversationId := s.nextConversationId + 1 }) ∧
      ∀ swaps : List (Bool × Nat),
        conversationPairCount
          (swaps.foldl
            (fun st p =>
              createConversationRun (if p.1 then b else a) (if p.1 then a else b) p.2 st)
            (createConversationRun a b now s)) a b = 1) := by
  refine ⟨createConversation_comm s a b now, ?_, ?_⟩
  · intro hpos
    rcases hcons : s.conversations.filter
        (fun c => decide (c.user1_id = min a b ∧ c.user2_id = max a b)) with _ | ⟨c0, rest⟩
    · unfold conversationPairCount at hpos
      rw [hcons] at hpos
      simp at hpos
    · exact ⟨c0, createConversation_found hab husers hcons⟩
  · intro hzero
    have hnil : s.conversations.filter
        (fun c => decide (c.user1_id = min a b ∧ c.user2_id = max a b)) = [] := by
      unfold conversationPairCount at hzero
      exact List.length_eq_zero.mp hzero
    refine ⟨createConversation_insert hab husers hnil, ?_⟩
    have hone : conversationPairCount (createConversationRun a b now s) a b = 1 :=
      conversationPairCount_after_insert hab husers hzero
    have hfold : ∀ (swaps : List (Bool × Nat)) (st : DB),
        conversationPairCount st a b = 1 →
        conversationPairCount
          (swaps.foldl (fun st p =>
            createConversationRun (if p.1 then b else a) (if p.1 then a else b) p.2 st) st)
          a b = 1 := by
      intro swaps
      induction swaps with
      | nil =>
        intro st h1
        exact h1
      | cons p ps ih =>
        intro st h1
        rw [List.foldl_cons]
        apply ih
        by_cases hp : p.1 = true
        · rw [if_pos hp, if_pos hp]
          exact conversationPairCount_run_preserved p.2 (Nat.min_comm b a) (Nat.max_comm b a) h1
        · rw [if_neg hp, if_neg hp]
          exact conversationPairCount_run_preserved p.2 rfl rfl h1
    intro swaps
    exact hfold swaps _ hone

/-- C2 witness data: both orders of the sample pair give one identical result. -/
theorem C2_witness :
    (1 : Nat) ≠ 2 ∧
    (sampleDB.users.filter fun u => decide (u.id = 1 ∨ u.id = 2)).length = 2 ∧
    createConversation sampleDB 1 2 5 = createConversation sampleDB 2 1 5 :=
  ⟨by decide, by decide,
   (C2_get_or_create_symmetric_idempotent sampleDB 1 2 5 (by decide) (by decide)).1⟩

/-- C3: once createBuddyMatch(a, b) has succeeded, createBuddyMatch in either
direction keeps failing with the duplicate-match error after any sequence of
further operations (status updates included, so the stored match's status is
irrelevant), and the failed call leaves the store unchanged. -/
theorem C3_duplicate_match_guard (s : DB) (a b now : Nat) (m : BuddyMatch) (s₁ : DB)
    (hok : createBuddyMatch s a b now = .ok (m, s₁)) (ops : List Op) (now' : Nat) :
    createBuddyMatch (execOps s₁ ops) a b now' =
      .error "Buddy match already exists between these users" ∧
    createBuddyMatch (execOps s₁ ops) b a now' =
      .error "Buddy match already exists between these users" ∧
    execOp (execOps s₁ ops) (Op.createBuddyMatchOp a b now') = execOps s₁ ops := by
  obtain ⟨hab, husers, hdup, hm, hs₁⟩ := createBuddyMatch_ok hok
  have hstart : hasMatchBetween s₁ a b := by
    rw [hasMatchBetween, hs₁]
    refine ⟨m, List.mem_append_right _ (List.mem_singleton_self m), ?_⟩
    rw [hm]
    exact Or.inl ⟨rfl, rfl⟩
  have h₂ : hasMatchBetween (execOps s₁ ops) a b := execOps_hasMatchBetween ops hstart
  have husers₂ : ((execOps s₁ ops).users.filter fun u =>
      decide (u.id = a ∨ u.id = b)).length = 2 := by
    rw [execOps_users, hs₁]
    exact husers
  have herr1 :=
    @createBuddyMatch_error_of_hasMatchBetween (execOps s₁ ops) a b now' hab husers₂ h₂
  have hsymm : hasMatchBetween (execOps s₁ ops) b a := by
    obtain ⟨m', hm', hc⟩ := h₂
    exact ⟨m', hm', hc.symm⟩
  have hfc : ((execOps s₁ ops).users.filter fun u => decide (u.id = b ∨ u.id = a)) =
      ((execOps s₁ ops).users.filter fun u => decide (u.id = a ∨ u.id = b)) :=
    List.filter_congr fun u _ => by
      rw [decide_eq_decide]
      exact or_comm
  have husers₂' : ((execOps s₁ ops).users.filter fun u =>
      decide (u.id = b ∨ u.id = a)).length = 2 := by
    rw [hfc]
    exact husers₂
  have herr2 :=
    @createBuddyMatch_error_of_hasMatchBetween (execOps s₁ ops) b a now' (Ne.symm hab)
      husers₂' hsymm
  refine ⟨herr1, herr2, ?_⟩
  simp only [execOp, herr1]

/-- store after createBuddyMatch(1, 2) at time 3 from the sample store. -/
def sampleAfterMatch : DB :=
  { sampleDB with
      buddyMatches := [{ id := 1, requester_id := 1, recipient_id := 2,
                         status := MatchStatus.pending, created_at := 3, updated_at := 3 }]
      nextMatchId := 2 }

/-- C3 witness data: the reverse-direction retry fails on the sample store. -/
theorem C3_witness :
    createBuddyMatch sampleDB 1 2 3 =
      .ok ({ id := 1, requester_id := 1, recipient_id := 2, status := MatchStatus.pending,
             created_at := 3, updated_at := 3 }, sampleAfterMatch) ∧
    createBuddyMatch (execOps sampleAfterMatch []) 2 1 7 =
      .error "Buddy match already exists between these users" :=
  ⟨rfl,
   (C3_duplicate_match_guard sampleDB 1 2 3
      { id := 1, requester_id := 1, recipient_id := 2, status := MatchStatus.pending,
        created_at := 3, updated_at := 3 }
      sampleAfterMatch rfl [] 7).2.1⟩

/-- C4: updateBuddyMatchStatus fails with the combined error exactly when no
row with the given id is pending; and once a transition out of pending has
succeeded (the stored ids being bounded by the serial counter), every later
updateBuddyMatchStatus on that id fails, whatever operations run in between. -/
theorem C4_status_update_one_shot (s : DB) (id now : Nat) (st : DecisionStatus) :
    (updateBuddyMatchStatus s id st now =
        .error "Buddy match not found or not in pending status" ↔
      ¬ ∃ m ∈ s.buddyMatches, m.id = id ∧ m.status = MatchStatus.pending) ∧
    ((∀ m ∈ s.buddyMatches, m.id < s.nextMatchId) →
      ∀ r s₁, updateBuddyMatchStatus s id st now = .ok (r, s₁) →
        ∀ (ops : List Op) (st' : DecisionStatus) (now'' : Nat),
          updateBuddyMatchStatus (execOps s₁ ops) id st' now'' =
            .error "Buddy match not found or not in pending status") := by
  constructor
  · constructor
    · intro herr hex
      obtain ⟨r, s', hok⟩ := updateBuddyMatchStatus_ok_iff.mpr hex
      rw [herr] at hok
      cases hok
    · intro hno
      push_neg at hno
      exact updateBuddyMatchStatus_error_of_no_pending hno
  · intro hW r s₁ hok ops st' now''
    have hex : ∃ m ∈ s.buddyMatches, m.id = id ∧ m.status = MatchStatus.pending :=
      updateBuddyMatchStatus_ok_iff.mp ⟨r, s₁, hok⟩
    obtain ⟨m, hm, hid, -⟩ := hex
    have hlt : id < s.nextMatchId := hid ▸ hW m hm
    obtain hst := updateBuddyMatchStatus_ok_state hok
    have hinv₁ : id < s₁.nextMatchId ∧
        ∀ m' ∈ s₁.buddyMatches, m'.id = id → m'.status ≠ MatchStatus.pending := by
      refine ⟨by rw [hst.2.2.2.2.2.1]; exact hlt, ?_⟩
      rw [hst.2.2.2.2.2.2.1]
      intro m' hm' hid'
      obtain ⟨m0, hm0, hfm0⟩ := List.mem_map.mp hm'
      subst hfm0
      by_cases h0 : m0.id = id
      · rw [if_pos h0]
        cases st <;> simp [DecisionStatus.toMatchStatus]
      · rw [if_neg h0] at hid'
        exact absurd hid' h0
    have hinv₂ := execOps_pending_invariant ops hinv₁
    exact updateBuddyMatchStatus_error_of_no_pending hinv₂.2

/-- sample store with one pending match (id 1, requester 1, recipient 2). -/
def sampleMatchDB : DB :=
  { sampleDB with
      buddyMatches := [{ id := 1, requester_id := 1, recipient_id := 2,
                         status := MatchStatus.pending, created_at := 0, updated_at := 0 }]
      nextMatchId := 2 }

/-- store after accepting match 1 of `sampleMatchDB` at time 5. -/
def sampleAfterAccept : DB :=
  { sampleDB with
      conversations := [{ id := 1, user1_id := 1, user2_id := 2,
                          created_at := 5, updated_at := 5 }]
      buddyMatches := [{ id := 1, requester_id := 1, recipient_id := 2,
                         status := MatchStatus.accepted, created_at := 0, updated_at := 5 }]
      nextConversationId := 2
      nextMatchId := 2 }

/-- C4 witness data: updating a missing match fails, and declining an already
accepted match fails. -/
theorem C4_witness :
    updateBuddyMatchStatus sampleDB 1 DecisionStatus.accepted 5 =
      .error "Buddy match not found or not in pending status" ∧
    updateBuddyMatchStatus (execOps sampleAfterAccept []) 1 DecisionStatus.declined 7 =
      .error "Buddy match not found or not in pending status" :=
  ⟨(C4_status_update_one_shot sampleDB 1 5 DecisionStatus.accepted).1.mpr (by decide),
   (C4_status_update_one_shot sampleMatchDB 1 5 DecisionStatus.accepted).2 (by decide)
     { id := 1, requester_id := 1, recipient_id := 2, status := MatchStatus.accepted,
       created_at := 0, updated_at := 5 }
     sampleAfterAccept rfl [] DecisionStatus.declined 7⟩

/-- C5: declining never touches the conversations table; accepting inserts the
matched pair only when no conversation row connects it in either participant
order, and inserts at most that single row — when one exists (either order)
the conversations table is returned unchanged. -/
theorem C5_acceptance_at_most_one_conversation (s : DB) (id now : Nat) :
    (∀ r s₁, updateBuddyMatchStatus s id DecisionStatus.declined now = .ok (r, s₁) →
      s₁.conversations = s.conversations) ∧
    (∀ m0 rest,
      s.buddyMatches.filter
        (fun x => decide (x.id = id ∧ x.status = MatchStatus.pending)) = m0 :: rest →
      ∀ r s₁, updateBuddyMatchStatus s id DecisionStatus.accepted now = .ok (r, s₁) →
        ((∃ c ∈ s.conversations,
            (c.user1_id = m0.requester_id ∧ c.user2_id = m0.recipient_id) ∨
            (c.user1_id = m0.recipient_id ∧ c.user2_id = m0.requester_id)) →
          s₁.conversations = s.conversations) ∧
        ((¬ ∃ c ∈ s.conversations,
            (c.user1_id = m0.requester_id ∧ c.user2_id = m0.recipient_id) ∨
            (c.user1_id = m0.recipient_id ∧ c.user2_id = m0.requester_id)) →
          s₁.conversations = s.conversations ++
            [{ id := s.nextConversationId, user1_id := m0.requester_id,
               user2_id := m0.recipient_id, created_at := now, updated_at := now }])) := by
  constructor
  · intro r s₁ hok
    exact (updateBuddyMatchStatus_declined_state hok).1
  · intro m0 rest hcons r s₁ hok
    obtain ⟨h₁, h₂⟩ := updateBuddyMatchStatus_accepted_conversations hcons hok
    exact ⟨fun hex => (h₁ hex).1, fun hnex => (h₂ hnex).1⟩

/-- sample store with one conversation (1, 2). -/
def sampleConvDB : DB :=
  { sampleDB with
      conversations := [{ id := 1, user1_id := 1, user2_id := 2,
                          created_at := 0, updated_at := 0 }]
      nextConversationId := 2 }

/-- sample store with conversation (1, 2) and a pending match 2 → 1. -/
def sampleMatchConvDB : DB :=
  { sampleConvDB with
      buddyMatches := [{ id := 1, requester_id := 2, recipient_id := 1,
                         status := MatchStatus.pending, created_at := 0, updated_at := 0 }]
      nextMatchId := 2 }

/-- store after accepting match 1 of `sampleMatchConvDB` at time 5: the
existing conversation is reused, none is added. -/
def sampleMatchConvAfter : DB :=
  { sampleConvDB with
      buddyMatches := [{ id := 1, requester_id := 2, recipient_id := 1,
                         status := MatchStatus.accepted, created_at := 0, updated_at := 5 }]
      nextMatchId := 2 }

/-- C5 witness data: accepting with a reverse-order conversation present adds
no conversation row. -/
theorem C5_witness :
    sampleMatchConvAfter.conversations = sampleMatchConvDB.conversations :=
  (((C5_acceptance_at_most_one_conversation sampleMatchConvDB 1 5).2
    { id := 1, requester_id := 2, recipient_id := 1, status := MatchStatus.pending,
      created_at := 0, updated_at := 0 }
    [] rfl
    { id := 1, requester_id := 2, recipient_id := 1, status := MatchStatus.accepted,
      created_at := 0, updated_at := 5 }
    sampleMatchConvAfter rfl).1) (by decide)

/-- C6: with max_handicap_diff supplied, every retained user has a NULL
handicap or an absolute handicap within the threshold; and with no other
filter supplied, a user is retained exactly when stored and passing that
predicate — an absolute-magnitude comparison, with NULL always passing. -/
theorem C6_handicap_filter_semantics (s : DB) (d : Int) (input : SearchBuddiesInput)
    (u : User) (hd : input.max_handicap_diff = some d) :
    (u ∈ searchBuddies s input →
      u.handicap = none ∨ ∃ h, u.handicap = some h ∧ |h| ≤ d) ∧
    (u ∈ searchBuddies s
        { location := none, skill_level := none, course_id := none,
          time_preference := none, max_handicap_diff := some d } ↔
      u ∈ s.users ∧ (u.handicap = none ∨ ∃ h, u.handicap = some h ∧ |h| ≤ d)) := by
  constructor
  · intro hu
    have hpass := (mem_searchBuddies.mp hu).2.2.2.1
    simp only [passesHandicap, hd] at hpass
    cases hh : u.handicap with
    | none => exact Or.inl rfl
    | some h =>
      right
      rw [hh] at hpass
      simp only [decide_eq_true_eq] at hpass
      exact ⟨h, rfl, hpass⟩
  · rw [mem_searchBuddies]
    simp only [passesLocation, passesSkillLevel, passesHandicap, passesCourse, passesTime]
    cases hh : u.handicap with
    | none => simp [hh]
    | some h => simp [hh]

/-- C6 witness data: a user without handicap passes a negative threshold. -/
theorem C6_witness :
    sampleUser2 ∈ searchBuddies sampleDB
      { location := none, skill_level := none, course_id := none,
        time_preference := none, max_handicap_diff := some (-5) } :=
  (C6_handicap_filter_semantics sampleDB (-5)
      { location := none, skill_level := none, course_id := none,
        time_preference := none, max_handicap_diff := some (-5) }
      sampleUser2 rfl).2.mpr ⟨by decide, Or.inl rfl⟩

/-- C7 counterexample: course_id 0 is supplied and matches no favorite row,
yet searchBuddies returns every user instead of the empty list, because the
handler's JavaScript truthiness guard treats a zero course_id as absent. -/
theorem C7_counterexample :
    sampleDB.favoriteCourses = [] ∧
    searchBuddies sampleDB
      { location := none, skill_level := none, course_id := some 0,
        time_preference := none, max_handicap_diff := none } =
      [sampleUser1, sampleUser2] := ⟨rfl, rfl⟩

/-- C7 as amended: for every supplied NONZERO course_id that no favorite row
references, searchBuddies returns the empty list (and no error). -/
theorem C7_nonzero_unmatched_course_empty (s : DB) (input : SearchBuddiesInput) (c : Nat)
    (hc : input.course_id = some c) (hc0 : c ≠ 0)
    (hfav : ∀ f ∈ s.favoriteCourses, f.course_id ≠ c) :
    searchBuddies s input = [] := by
  rw [List.eq_nil_iff_forall_not_mem]
  intro u hu
  have hpass := (mem_searchBuddies.mp hu).2.2.2.2.1
  simp only [passesCourse, hc] at hpass
  rcases hpass with h0 | ⟨f, hf, hcf, -⟩
  · exact hc0 h0
  · exact hfav f hf hcf

/-- C7 witness data: an unmatched nonzero course id yields the empty result. -/
theorem C7_witness :
    searchBuddies sampleDB
      { location := none, skill_level := none, course_id := some 9,
        time_preference := none, max_handicap_diff := none } = [] :=
  C7_nonzero_unmatched_course_empty sampleDB
    { location := none, skill_level := none, course_id := some 9,
      time_preference := none, max_handicap_diff := none }
    9 rfl (by decide) (by decide)

/-- C8: sendMessage fails with the combined error exactly when no conversation
row with that id has the sender as a participant; on success it appends the
message with status sent, touches only that conversation's updated_at, and
every other conversation row is kept as-is. -/
theorem C8_send_message_guard_and_effects (s : DB) (cid sid : Nat) (content : String)
    (now : Nat) :
    (sendMessage s cid sid content now =
        .error "Conversation not found or sender is not a participant" ↔
      ¬ ∃ c ∈ s.conversations, c.id = cid ∧ (c.user1_id = sid ∨ c.user2_id = sid)) ∧
    (∀ msg s₁, sendMessage s cid sid content now = .ok (msg, s₁) →
      msg = { id := s.nextMessageId, conversation_id := cid, sender_id := sid,
              content := content, status := MessageStatus.sent, created_at := now } ∧
      s₁.messages = s.messages ++ [msg] ∧
      s₁.conversations = s.conversations.map
        (fun c => if c.id = cid then { c with updated_at := now } else c) ∧
      ∀ c ∈ s.conversations, c.id ≠ cid → c ∈ s₁.conversations) := by
  constructor
  · constructor
    · intro herr hex
      obtain ⟨msg, s₁, hok⟩ := sendMessage_ok_of_participant hex
      rw [herr] at hok
      cases hok
    · intro hnex
      refine sendMessage_error_of_no_participant ?_
      intro c hc hcond
      exact hnex ⟨c, hc, hcond⟩
  · intro msg s₁ hok
    obtain hst := sendMessage_ok_state hok
    refine ⟨hst.2.1, hst.2.2.2.2.2.2.2.2.2.1, hst.2.2.2.2.2.2.2.2.2.2, ?_⟩
    intro c hc hne
    rw [hst.2.2.2.2.2.2.2.2.2.2]
    have hmem := List.mem_map_of_mem
      (fun c => if c.id = cid then { c with updated_at := now } else c) hc
    simpa [hne] using hmem

/-- store after user 2 sends "hello" in conversation 1 at time 9. -/
def sampleConvAfterSend : DB :=
  { sampleDB with
      conversations := [{ id := 1, user1_id := 1, user2_id := 2,
                          created_at := 0, updated_at := 9 }]
      messages := [{ id := 1, conversation_id := 1, sender_id := 2, content := "hello",
                     status := MessageStatus.sent, created_at := 9 }]
      nextConversationId := 2
      nextMessageId := 2 }

/-- C8 witness data: a non-participant sender fails, a participant's message
is appended with status sent. -/
theorem C8_witness :
    sendMessage sampleConvDB 1 3 "hi" 9 =
      .error "Conversation not found or sender is not a participant" ∧
    sampleConvAfterSend.messages = sampleConvDB.messages ++
      [{ id := 1, conversation_id := 1, sender_id := 2, content := "hello",
         status := MessageStatus.sent, created_at := 9 }] :=
  ⟨(C8_send_message_guard_and_effects sampleConvDB 1 3 "hi" 9).1.mpr (by decide),
   ((C8_send_message_guard_and_effects sampleConvDB 1 2 "hello" 9).2
     { id := 1, conversation_id := 1, sender_id := 2, content := "hello",
       status := MessageStatus.sent, created_at := 9 }
     sampleConvAfterSend rfl).2.1⟩

/-- C9: getMessages fails with the conversation-not-found error exactly when
no conversation row has the given id; on success the returned list is the
[offset, offset + limit) window (defaults 0 and 100) of a created_at-sorted
permutation of that conversation's messages. -/
theorem C9_get_messages_window (s : DB) (cid : Nat) (limit offset : Option Nat) :
    (getMessages s cid limit offset = .error "Conversation not found" ↔
      ¬ ∃ c ∈ s.conversations, c.id = cid) ∧
    (∀ l, getMessages s cid limit offset = .ok l →
      ∃ sortedAll : List Message,
        sortedAll.Perm (s.messages.filter fun m => decide (m.conversation_id = cid)) ∧
        List.Sorted byCreatedAt sortedAll ∧
        l = (sortedAll.drop (offset.getD 0)).take (limit.getD 100)) := by
  constructor
  · constructor
    · intro herr hex
      have hok := @getMessages_ok_of_conversation s cid limit offset hex
      rw [herr] at hok
      cases hok
    · intro hnex
      refine getMessages_error_of_no_conversation ?_
      intro c hc hcid
      exact hnex ⟨c, hc, hcid⟩
  · intro l hok
    by_cases hex : ∃ c ∈ s.conversations, c.id = cid
    · have h2 := @getMessages_ok_of_conversation s cid limit offset hex
      rw [hok] at h2
      rw [Except.ok.injEq] at h2
      exact ⟨(s.messages.filter fun m => decide (m.conversation_id = cid)).insertionSort
          byCreatedAt,
        List.perm_insertionSort _ _, List.sorted_insertionSort _ _, h2⟩
    · have herr := @getMessages_error_of_no_conversation s cid limit offset
        (fun c hc hcid => hex ⟨c, hc, hcid⟩)
      rw [hok] at herr
      cases herr

/-- message row i of the C9 fixture, created at time t in conversation 1. -/
def sampleMsg (i t : Nat) : Message :=
  { id := i, conversation_id := 1, sender_id := 1, content := "m",
    status := MessageStatus.sent, created_at := t }

/-- conversation 1 with five messages M1..M5 in creation order. -/
def fiveMsgDB : DB :=
  { sampleConvDB with
      messages := [sampleMsg 1 1, sampleMsg 2 2, sampleMsg 3 3, sampleMsg 4 4, sampleMsg 5 5]
      nextMessageId := 6 }

/-- C9 witness data: an unknown conversation id errors, and limit 2 offset 1
on the five-message fixture returns exactly [M2, M3]. -/
theorem C9_witness :
    getMessages fiveMsgDB 7 (some 2) (some 1) = .error "Conversation not found" ∧
    getMessages fiveMsgDB 1 (some 2) (some 1) = .ok [sampleMsg 2 2, sampleMsg 3 3] :=
  ⟨(C9_get_messages_window fiveMsgDB 7 (some 2) (some 1)).1.mpr (by decide), rfl⟩

/-- C10: searchBuddies treats an empty-string location exactly like an
omitted location: the handler's truthiness guard skips the equality
condition, so the results coincide for every store and every other filter. -/
theorem C10_empty_location_is_no_filter (s : DB) (input : SearchBuddiesInput) :
    searchBuddies s { input with location := some "" } =
      searchBuddies s { input with location := none } := rfl

end GolfBuddy
